import Mathlib

/-!
Verification of `Filter_shapefile_by_intersection` from
`Scientific_workflows/DEAWaterbodies/DEAWaterbodiesToolkit/RemoveRiversfromWaterBodyPolygons.ipynb`.

The notebook defines one function: a spatial-intersection filter over two
geopandas dataframes.  We embed it shallowly: a `GeoDataFrame` is an ordered
list of `(index, geometry)` rows plus a coordinate-reference-system tag; the
geometry library's topological predicates (delegated to `gp.sjoin` with
`op=filtertype` in the source) are an abstract parameter
`lib : Filtertype → γ → γ → Bool` applied with the filter geometry as the
left operand, mirroring geopandas' `sjoin(gpdFilter, gpdData, op=...)`.
-/

/-- The `filtertype` argument: "Options = ['intersects', 'contains', 'within']". -/
inductive Filtertype : Type
  | intersects
  | contains
  | within
deriving DecidableEq, Repr

/-- A geopandas dataframe, as used by the notebook: an ordered mapping from a
stable integer index to a geometry, plus a coordinate reference system tag. -/
structure GeoDataFrame (γ : Type) : Type where
  rows : List (Nat × γ)
  crs : String
deriving DecidableEq, Repr

/-- The `index_right` column of `gp.sjoin(gpdFilter, gpdData, how="inner",
op=filtertype)`: for every filter row and every data row whose geometries
satisfy the predicate (filter geometry as left operand), the data row's
index. -/
def sjoin_index_right {γ : Type} (lib : Filtertype → γ → γ → Bool)
    (gpdFilter gpdData : GeoDataFrame γ) (op : Filtertype) : List Nat :=
  gpdFilter.rows.flatMap fun fr =>
    (gpdData.rows.filter fun tr => lib op fr.2 tr.2).map Prod.fst

/-- Python's `sorted(set(l))` for a list of integer indices: deduplicate,
then sort in ascending order. -/
def sortedSet (l : List Nat) : List Nat :=
  List.insertionSort (· ≤ ·) l.dedup

/-- The result of `Filter_shapefile_by_intersection`: the filtered dataframe,
the `IntersectIndex` list, and (when `returnInverse`) the inverse dataframe. -/
structure FilterResult (γ : Type) : Type where
  gpdDataFiltered : GeoDataFrame γ
  IntersectIndex : List Nat
  gpdDataInverse : Option (GeoDataFrame γ)
deriving DecidableEq, Repr

/-- Shallow embedding of the notebook's `Filter_shapefile_by_intersection`:

    Intersections = gp.sjoin(gpdFilter, gpdData, how="inner", op=filtertype)
    IntersectIndex = sorted(set(Intersections['index_right']))
    if invertMask:
        gpdDataFiltered = gpdData.loc[~gpdData.index.isin(IntersectIndex)]
    else:
        gpdDataFiltered = gpdData.loc[gpdData.index.isin(IntersectIndex)]
    if returnInverse:
        if invertMask:
            gpdDataInverse = gpdData.loc[gpdData.index.isin(IntersectIndex)]
        else:
            gpdDataInverse = gpdData.loc[~gpdData.index.isin(IntersectIndex)]
        return gpdDataFiltered, IntersectIndex, gpdDataInverse
    else:
        return gpdDataFiltered, IntersectIndex

The commented-out CRS assertion of the source is (faithfully) absent. -/
def Filter_shapefile_by_intersection {γ : Type} (lib : Filtertype → γ → γ → Bool)
    (gpdData gpdFilter : GeoDataFrame γ)
    (filtertype : Filtertype := Filtertype.intersects)
    (invertMask : Bool := true)
    (returnInverse : Bool := false) : FilterResult γ :=
  let Intersections := sjoin_index_right lib gpdFilter gpdData filtertype
  let IntersectIndex := sortedSet Intersections
  let gpdDataFiltered : GeoDataFrame γ :=
    if invertMask then
      { gpdData with rows := gpdData.rows.filter fun tr => !decide (tr.1 ∈ IntersectIndex) }
    else
      { gpdData with rows := gpdData.rows.filter fun tr => decide (tr.1 ∈ IntersectIndex) }
  if returnInverse then
    let gpdDataInverse : GeoDataFrame γ :=
      if invertMask then
        { gpdData with rows := gpdData.rows.filter fun tr => decide (tr.1 ∈ IntersectIndex) }
      else
        { gpdData with rows := gpdData.rows.filter fun tr => !decide (tr.1 ∈ IntersectIndex) }
    ⟨gpdDataFiltered, IntersectIndex, some gpdDataInverse⟩
  else
    ⟨gpdDataFiltered, IntersectIndex, none⟩

/-- The spec's Match Set, written from the spec's words: the set of Target
Collection identifiers for which at least one Filter Collection geometry
satisfies the Spatial Predicate against that target geometry. -/
def InMatchSet {γ : Type} (lib : Filtertype → γ → γ → Bool) (op : Filtertype)
    (gpdData gpdFilter : GeoDataFrame γ) (t : Nat) : Prop :=
  ∃ fr ∈ gpdFilter.rows, ∃ tr ∈ gpdData.rows, tr.1 = t ∧ lib op fr.2 tr.2 = true

instance {γ : Type} (lib : Filtertype → γ → γ → Bool) (op : Filtertype)
    (gpdData gpdFilter : GeoDataFrame γ) (t : Nat) :
    Decidable (InMatchSet lib op gpdData gpdFilter t) := by
  unfold InMatchSet; infer_instance

/-! ### Basic unfolding lemmas -/

theorem IntersectIndex_eq {γ : Type} (lib : Filtertype → γ → γ → Bool)
    (gpdData gpdFilter : GeoDataFrame γ) (ft : Filtertype) (inv rinv : Bool) :
    (Filter_shapefile_by_intersection lib gpdData gpdFilter ft inv rinv).IntersectIndex
      = sortedSet (sjoin_index_right lib gpdFilter gpdData ft) := by
  cases rinv <;> rfl

theorem gpdDataFiltered_eq {γ : Type} (lib : Filtertype → γ → γ → Bool)
    (gpdData gpdFilter : GeoDataFrame γ) (ft : Filtertype) (inv rinv : Bool) :
    (Filter_shapefile_by_intersection lib gpdData gpdFilter ft inv rinv).gpdDataFiltered
      = if inv then
          GeoDataFrame.mk (gpdData.rows.filter
            (fun tr => !decide (tr.1 ∈ sortedSet (sjoin_index_right lib gpdFilter gpdData ft))))
            gpdData.crs
        else
          GeoDataFrame.mk (gpdData.rows.filter
            (fun tr => decide (tr.1 ∈ sortedSet (sjoin_index_right lib gpdFilter gpdData ft))))
            gpdData.crs := by
  cases rinv <;> rfl

theorem gpdDataInverse_eq {γ : Type} (lib : Filtertype → γ → γ → Bool)
    (gpdData gpdFilter : GeoDataFrame γ) (ft : Filtertype) (inv : Bool) :
    (Filter_shapefile_by_intersection lib gpdData gpdFilter ft inv true).gpdDataInverse
      = some (if inv then
          GeoDataFrame.mk (gpdData.rows.filter
            (fun tr => decide (tr.1 ∈ sortedSet (sjoin_index_right lib gpdFilter gpdData ft))))
            gpdData.crs
        else
          GeoDataFrame.mk (gpdData.rows.filter
            (fun tr => !decide (tr.1 ∈ sortedSet (sjoin_index_right lib gpdFilter gpdData ft))))
            gpdData.crs) := by
  rfl

theorem mem_sortedSet (l : List Nat) (t : Nat) : t ∈ sortedSet l ↔ t ∈ l := by
  unfold sortedSet
  rw [List.mem_insertionSort, List.mem_dedup]

theorem mem_sjoin_index_right {γ : Type} (lib : Filtertype → γ → γ → Bool)
    (gpdFilter gpdData : GeoDataFrame γ) (op : Filtertype) (t : Nat) :
    t ∈ sjoin_index_right lib gpdFilter gpdData op ↔
      InMatchSet lib op gpdData gpdFilter t := by
  unfold sjoin_index_right InMatchSet
  simp only [List.mem_flatMap, List.mem_map, List.mem_filter]
  constructor
  · rintro ⟨fr, hfr, tr, ⟨htr, hlib⟩, hfst⟩
    exact ⟨fr, hfr, tr, htr, hfst, hlib⟩
  · rintro ⟨fr, hfr, tr, htr, hfst, hlib⟩
    exact ⟨fr, hfr, tr, ⟨htr, hlib⟩, hfst⟩

theorem mem_IntersectIndex {γ : Type} (lib : Filtertype → γ → γ → Bool)
    (gpdData gpdFilter : GeoDataFrame γ) (ft : Filtertype) (inv rinv : Bool) (t : Nat) :
    t ∈ (Filter_shapefile_by_intersection lib gpdData gpdFilter ft inv rinv).IntersectIndex
      ↔ InMatchSet lib ft gpdData gpdFilter t := by
  rw [IntersectIndex_eq, mem_sortedSet, mem_sjoin_index_right]

/-! ### Claims -/

/-- C1: for every target collection, filter collection, predicate and
`invertMask` value, the `IntersectIndex` returned by the filter operation has
exactly the members of the Match Set — the target identifiers satisfying the
predicate against at least one filter geometry — and it is the same list
whether `invertMask` is true or false. -/
theorem C1_excludedIds_is_match_set {γ : Type} (lib : Filtertype → γ → γ → Bool)
    (gpdData gpdFilter : GeoDataFrame γ) (ft : Filtertype) (inv rinv : Bool) :
    (∀ t, t ∈ (Filter_shapefile_by_intersection lib gpdData gpdFilter ft inv rinv).IntersectIndex
        ↔ InMatchSet lib ft gpdData gpdFilter t)
    ∧ (Filter_shapefile_by_intersection lib gpdData gpdFilter ft true rinv).IntersectIndex
        = (Filter_shapefile_by_intersection lib gpdData gpdFilter ft false rinv).IntersectIndex := by
  refine ⟨fun t => mem_IntersectIndex lib gpdData gpdFilter ft inv rinv t, ?_⟩
  rw [IntersectIndex_eq, IntersectIndex_eq]

/-- C2: with `invertMask = true` the kept rows are exactly the target rows
whose identifier is NOT in the Match Set; with `invertMask = false` they are
exactly the target rows whose identifier IS in the Match Set. -/
theorem C2_kept_rows_by_invertMask {γ : Type} (lib : Filtertype → γ → γ → Bool)
    (gpdData gpdFilter : GeoDataFrame γ) (ft : Filtertype) (rinv : Bool) (r : Nat × γ) :
    (r ∈ (Filter_shapefile_by_intersection lib gpdData gpdFilter ft true rinv).gpdDataFiltered.rows
        ↔ r ∈ gpdData.rows ∧ ¬ InMatchSet lib ft gpdData gpdFilter r.1)
    ∧ (r ∈ (Filter_shapefile_by_intersection lib gpdData gpdFilter ft false rinv).gpdDataFiltered.rows
        ↔ r ∈ gpdData.rows ∧ InMatchSet lib ft gpdData gpdFilter r.1) := by
  constructor
  · rw [gpdDataFiltered_eq]
    simp [List.mem_filter, mem_sortedSet, mem_sjoin_index_right]
  · rw [gpdDataFiltered_eq]
    simp [List.mem_filter, mem_sortedSet, mem_sjoin_index_right]

/-- C3: with `returnInverse = true`, every target row lies in exactly one of
the kept rows and the inverse (discarded) rows: the two are disjoint and
their union is the full target collection. -/
theorem C3_kept_inverse_partition {γ : Type} (lib : Filtertype → γ → γ → Bool)
    (gpdData gpdFilter : GeoDataFrame γ) (ft : Filtertype) (inv : Bool) (r : Nat × γ) :
    ∃ dfInv,
      (Filter_shapefile_by_intersection lib gpdData gpdFilter ft inv true).gpdDataInverse
        = some dfInv
      ∧ (r ∈ gpdData.rows ↔
          (r ∈ (Filter_shapefile_by_intersection lib gpdData gpdFilter ft inv
                  true).gpdDataFiltered.rows
            ∨ r ∈ dfInv.rows))
      ∧ ¬(r ∈ (Filter_shapefile_by_intersection lib gpdData gpdFilter ft inv
                true).gpdDataFiltered.rows
          ∧ r ∈ dfInv.rows) := by
  refine ⟨_, gpdDataInverse_eq lib gpdData gpdFilter ft inv, ?_, ?_⟩ <;>
    rw [gpdDataFiltered_eq] <;> cases inv <;>
      simp [List.mem_filter] <;> tauto

/-- C4: an empty filter collection yields an empty `IntersectIndex` (Match
Set), and with `invertMask = true` the kept output is the full target
collection. -/
theorem C4_empty_filter_keeps_all {γ : Type} (lib : Filtertype → γ → γ → Bool)
    (gpdData : GeoDataFrame γ) (c : String) (ft : Filtertype) (rinv : Bool) :
    (Filter_shapefile_by_intersection lib gpdData ⟨[], c⟩ ft true rinv).IntersectIndex = []
    ∧ (Filter_shapefile_by_intersection lib gpdData ⟨[], c⟩ ft true rinv).gpdDataFiltered
        = gpdData := by
  obtain ⟨rowsd, crsd⟩ := gpdData
  constructor
  · rw [IntersectIndex_eq]
    rfl
  · rw [gpdDataFiltered_eq]
    simp [sjoin_index_right, sortedSet]

/-- A concrete geometry library over `Bool` geometries in which every pair of
geometries satisfies every predicate; used to instantiate witnesses. -/
def libAll : Filtertype → Bool → Bool → Bool := fun _ _ _ => true

theorem flatMap_const_nil {α β : Type} (l : List α) :
    (l.flatMap fun _ => ([] : List β)) = [] := by
  induction l with
  | nil => rfl
  | cons a l ih => simp [List.flatMap_cons, ih]

/-- C5 (amended): the operation performs no emptiness validation and returns
normally on empty collections; when either collection is empty the join
yields no pairs and `IntersectIndex` is empty. -/
theorem C5_empty_collection_returns_empty_index {γ : Type}
    (lib : Filtertype → γ → γ → Bool) (gpdData gpdFilter : GeoDataFrame γ)
    (ft : Filtertype) (inv rinv : Bool)
    (h : gpdData.rows = [] ∨ gpdFilter.rows = []) :
    (Filter_shapefile_by_intersection lib gpdData gpdFilter ft inv rinv).IntersectIndex
      = [] := by
  rw [IntersectIndex_eq]
  rcases h with h | h <;>
    simp [sjoin_index_right, h, sortedSet, flatMap_const_nil]

/-- Witness for C5: a concrete empty target collection. -/
theorem C5_empty_collection_witness :
    ((⟨[], "epsg:3577"⟩ : GeoDataFrame Bool).rows = []
        ∨ (⟨[(0, true)], "epsg:3577"⟩ : GeoDataFrame Bool).rows = [])
    ∧ (Filter_shapefile_by_intersection libAll ⟨[], "epsg:3577"⟩
        ⟨[(0, true)], "epsg:3577"⟩ Filtertype.intersects true false).IntersectIndex = [] :=
  ⟨Or.inl rfl,
    C5_empty_collection_returns_empty_index libAll _ _ Filtertype.intersects true false
      (Or.inl rfl)⟩

/-- Counterexample to C5 as stated: on empty input collections the operation
does not fail — it returns a normal result (empty kept rows list, empty
`IntersectIndex`, no inverse). -/
theorem C5_counterexample_returns_normally :
    Filter_shapefile_by_intersection libAll
      (⟨[], "epsg:3577"⟩ : GeoDataFrame Bool) ⟨[], "epsg:3577"⟩
      Filtertype.intersects true false
      = ⟨⟨[], "epsg:3577"⟩, [], none⟩ := by
  rfl

/-- C6 (amended): the operation performs no coordinate-reference-system
check (the assertion in the source is commented out): its result is
identical for any two CRS tags on the filter collection, so no mismatch is
ever surfaced. -/
theorem C6_no_crs_check {γ : Type} (lib : Filtertype → γ → γ → Bool)
    (gpdData : GeoDataFrame γ) (rowsf : List (Nat × γ)) (c c' : String)
    (ft : Filtertype) (inv rinv : Bool) :
    Filter_shapefile_by_intersection lib gpdData ⟨rowsf, c⟩ ft inv rinv
      = Filter_shapefile_by_intersection lib gpdData ⟨rowsf, c'⟩ ft inv rinv := by
  cases inv <;> cases rinv <;> rfl

/-- Counterexample to C6 as stated: with concrete collections whose CRS tags
differ, the operation neither raises nor surfaces anything — it returns the
very same normal result as the matched-CRS run. -/
theorem C6_counterexample_no_mismatch_surfaced :
    ((⟨[(0, true)], "epsg:3577"⟩ : GeoDataFrame Bool).crs
        ≠ (⟨[(1, true)], "epsg:4326"⟩ : GeoDataFrame Bool).crs)
    ∧ Filter_shapefile_by_intersection libAll ⟨[(0, true)], "epsg:3577"⟩
        ⟨[(1, true)], "epsg:4326"⟩ Filtertype.intersects true false
      = Filter_shapefile_by_intersection libAll ⟨[(0, true)], "epsg:3577"⟩
        ⟨[(1, true)], "epsg:3577"⟩ Filtertype.intersects true false := by
  exact ⟨by decide, rfl⟩

/-- C7: if the library's `contains` relation implies its `intersects`
relation, then the `IntersectIndex` computed with `contains` is a subset of
the one computed with `intersects` on the same inputs. -/
theorem C7_contains_subset_intersects {γ : Type} (lib : Filtertype → γ → γ → Bool)
    (gpdData gpdFilter : GeoDataFrame γ) (inv rinv : Bool)
    (h : ∀ a b : γ, lib Filtertype.contains a b = true →
      lib Filtertype.intersects a b = true) (t : Nat)
    (ht : t ∈ (Filter_shapefile_by_intersection lib gpdData gpdFilter
      Filtertype.contains inv rinv).IntersectIndex) :
    t ∈ (Filter_shapefile_by_intersection lib gpdData gpdFilter
      Filtertype.intersects inv rinv).IntersectIndex := by
  rw [mem_IntersectIndex] at ht ⊢
  obtain ⟨fr, hfr, tr, htr, h1, h2⟩ := ht
  exact ⟨fr, hfr, tr, htr, h1, h fr.2 tr.2 h2⟩

/-- Witness for C7 at a concrete library and concrete collections. -/
theorem C7_contains_subset_intersects_witness :
    (∀ a b : Bool, libAll Filtertype.contains a b = true →
        libAll Filtertype.intersects a b = true)
    ∧ 0 ∈ (Filter_shapefile_by_intersection libAll
        (⟨[(0, true)], "a"⟩ : GeoDataFrame Bool) ⟨[(1, false)], "a"⟩
        Filtertype.contains true false).IntersectIndex
    ∧ 0 ∈ (Filter_shapefile_by_intersection libAll
        (⟨[(0, true)], "a"⟩ : GeoDataFrame Bool) ⟨[(1, false)], "a"⟩
        Filtertype.intersects true false).IntersectIndex :=
  ⟨fun _ _ _ => rfl, by decide,
    C7_contains_subset_intersects libAll _ _ true false (fun _ _ _ => rfl) 0 (by decide)⟩

/-- C8: the operation is deterministic — identical arguments yield identical
results. -/
theorem C8_deterministic {γ : Type} (lib : Filtertype → γ → γ → Bool)
    (d1 d2 f1 f2 : GeoDataFrame γ) (ft1 ft2 : Filtertype) (i1 i2 r1 r2 : Bool)
    (hd : d1 = d2) (hf : f1 = f2) (hft : ft1 = ft2) (hi : i1 = i2) (hr : r1 = r2) :
    Filter_shapefile_by_intersection lib d1 f1 ft1 i1 r1
      = Filter_shapefile_by_intersection lib d2 f2 ft2 i2 r2 := by
  subst hd
  subst hf
  subst hft
  subst hi
  subst hr
  rfl

/-- Witness for C8 at concrete equal argument tuples. -/
theorem C8_deterministic_witness :
    Filter_shapefile_by_intersection libAll
        (⟨[(0, true)], "a"⟩ : GeoDataFrame Bool) ⟨[(1, true)], "a"⟩
        Filtertype.intersects true true
      = Filter_shapefile_by_intersection libAll
        ⟨[(0, true)], "a"⟩ ⟨[(1, true)], "a"⟩ Filtertype.intersects true true :=
  C8_deterministic libAll _ _ _ _ _ _ true true true true rfl rfl rfl rfl rfl

/-- The local environment of one call to `Filter_shapefile_by_intersection`:
the parameter bindings plus the locals the body assigns.  Locals hold
arbitrary values before their assignment; each statement of the body
overwrites exactly the binding that its Python assignment targets. -/
structure FilterEnv (γ : Type) : Type where
  gpdData : GeoDataFrame γ
  gpdFilter : GeoDataFrame γ
  filtertype : Filtertype
  invertMask : Bool
  returnInverse : Bool
  Intersections : List Nat
  IntersectIndex : List Nat
  gpdDataFiltered : GeoDataFrame γ
  gpdDataInverse : Option (GeoDataFrame γ)

/-- `Intersections = gp.sjoin(gpdFilter, gpdData, how="inner", op=filtertype)`
(tracking its `index_right` column). -/
def stmt_sjoin {γ : Type} (lib : Filtertype → γ → γ → Bool) (e : FilterEnv γ) :
    FilterEnv γ :=
  let ix := sjoin_index_right lib e.gpdFilter e.gpdData e.filtertype
  { e with Intersections := ix }

/-- `IntersectIndex = sorted(set(Intersections['index_right']))`. -/
def stmt_sortedSet {γ : Type} (e : FilterEnv γ) : FilterEnv γ :=
  { e with IntersectIndex := sortedSet e.Intersections }

/-- The `if invertMask:` block assigning `gpdDataFiltered`. -/
def stmt_mask {γ : Type} (e : FilterEnv γ) : FilterEnv γ :=
  let notIn : GeoDataFrame γ :=
    ⟨e.gpdData.rows.filter (fun tr => !decide (tr.1 ∈ e.IntersectIndex)), e.gpdData.crs⟩
  let isIn : GeoDataFrame γ :=
    ⟨e.gpdData.rows.filter (fun tr => decide (tr.1 ∈ e.IntersectIndex)), e.gpdData.crs⟩
  if e.invertMask then { e with gpdDataFiltered := notIn }
  else { e with gpdDataFiltered := isIn }

/-- The `if returnInverse:` block assigning `gpdDataInverse`. -/
def stmt_inverse {γ : Type} (e : FilterEnv γ) : FilterEnv γ :=
  let notIn : GeoDataFrame γ :=
    ⟨e.gpdData.rows.filter (fun tr => !decide (tr.1 ∈ e.IntersectIndex)), e.gpdData.crs⟩
  let isIn : GeoDataFrame γ :=
    ⟨e.gpdData.rows.filter (fun tr => decide (tr.1 ∈ e.IntersectIndex)), e.gpdData.crs⟩
  if e.returnInverse then
    if e.invertMask then { e with gpdDataInverse := some isIn }
    else { e with gpdDataInverse := some notIn }
  else e

/-- The body of `Filter_shapefile_by_intersection`, statement by statement,
as a transformer of the local environment. -/
def runFilterBody {γ : Type} (lib : Filtertype → γ → γ → Bool)
    (e : FilterEnv γ) : FilterEnv γ :=
  stmt_inverse (stmt_mask (stmt_sortedSet (stmt_sjoin lib e)))

/-- C9: the operation is pure over its inputs — running the body statement
by statement leaves both input collections exactly as they were, while its
computed locals agree with the pure function's outputs. -/
theorem C9_no_input_mutation {γ : Type} (lib : Filtertype → γ → γ → Bool)
    (e : FilterEnv γ) :
    (runFilterBody lib e).gpdData = e.gpdData
    ∧ (runFilterBody lib e).gpdFilter = e.gpdFilter
    ∧ (runFilterBody lib e).gpdDataFiltered
        = (Filter_shapefile_by_intersection lib e.gpdData e.gpdFilter
            e.filtertype e.invertMask e.returnInverse).gpdDataFiltered
    ∧ (runFilterBody lib e).IntersectIndex
        = (Filter_shapefile_by_intersection lib e.gpdData e.gpdFilter
            e.filtertype e.invertMask e.returnInverse).IntersectIndex
    ∧ (runFilterBody lib e).gpdDataInverse
        = (if e.returnInverse then
            (Filter_shapefile_by_intersection lib e.gpdData e.gpdFilter
              e.filtertype e.invertMask e.returnInverse).gpdDataInverse
          else e.gpdDataInverse) := by
  obtain ⟨gd, gf, ft, inv, rinv, i0, i1, f0, f1⟩ := e
  cases inv <;> cases rinv <;> exact ⟨rfl, rfl, rfl, rfl, rfl⟩

/-- C10: the returned `IntersectIndex` is strictly increasing — sorted in
increasing identifier order with no duplicate identifiers. -/
theorem C10_IntersectIndex_sorted_nodup {γ : Type}
    (lib : Filtertype → γ → γ → Bool) (gpdData gpdFilter : GeoDataFrame γ)
    (ft : Filtertype) (inv rinv : Bool) :
    List.Sorted (· < ·)
        (Filter_shapefile_by_intersection lib gpdData gpdFilter ft inv
          rinv).IntersectIndex
    ∧ (Filter_shapefile_by_intersection lib gpdData gpdFilter ft inv
        rinv).IntersectIndex.Nodup := by
  rw [IntersectIndex_eq]
  unfold sortedSet
  have hs : List.Sorted (· ≤ ·) (List.insertionSort (· ≤ ·)
      (sjoin_index_right lib gpdFilter gpdData ft).dedup) :=
    List.sorted_insertionSort _ _
  have hn : (List.insertionSort (· ≤ ·)
      (sjoin_index_right lib gpdFilter gpdData ft).dedup).Nodup :=
    (List.perm_insertionSort _ _).nodup_iff.mpr
      (List.nodup_dedup _)
  exact ⟨hs.lt_of_le hn, hn⟩
